import Mathlib

/-!
Verification of the task-workflow CLI (`tasks_cli.py`).

The command functions (`stage_move`, `move_command`, `history_command`,
`list_command`, `rollback_command`, `accept_command`, `_summary_to_text`)
are embedded from the source file.  The helper modules `task_helpers` and
`acceptance_support` are imported by the source but their code is not part
of the repository snapshot; those helpers are modelled from the spec and
each such definition carries a doc comment saying so.

Text is embedded as its list of lines (`List String`); effectful code is
embedded as a function returning a trace of `Effect`s, with failure
(`TaskCliError`, raised in Python before any mutation on the guarded
branches) embedded as `Except.error`, which carries no effect trace.
-/

namespace TasksCli

/-- Drop the first `n` characters of a string (character-level model of
Python string slicing). -/
def strDropChars (s : String) (n : Nat) : String :=
  String.mk (s.data.drop n)

/-- Character-level model of Python `str.startswith`. -/
def lineStarts (p s : String) : Bool :=
  p.data.isPrefixOf s.data

/-- Python `a or b` for an optional/possibly-empty string: the empty string
and `None` are falsy. -/
def pyOr (a : Option String) (b : String) : String :=
  match a with
  | some s => if s = "" then b else s
  | none => b

/-- Modelled from the spec: `LANES` (from the missing `task_helpers`
module) lists the named workflow lanes, "e.g., backlog, in-progress,
review, done". -/
def LANES : List String :=
  ["backlog", "in-progress", "review", "done"]

/-- The CLI error raised by guarded command branches. -/
structure TaskCliError where
  msg : String
deriving DecidableEq, Repr

/-- Modelled from the spec: `ensure_lane` (missing `task_helpers`) validates
that a lane name is one of the known `LANES`, raising `TaskCliError`
otherwise. -/
def ensure_lane (lane : String) : Except TaskCliError String :=
  if lane ∈ LANES then .ok lane else .error ⟨"Unknown lane: " ++ lane⟩

/-! ## Document model

Modelled from the spec: the missing `task_helpers` module "parses a
markdown file into (frontmatter key-value block, body text, trailing
padding); serializes back losslessly".  A document is its list of lines;
the frontmatter block is delimited by `---` lines, `none` meaning the
document has no frontmatter block at all. -/

/-- A line consisting only of whitespace. -/
def isBlank (l : String) : Bool :=
  l.trim = ""

/-- Split a body into (content, trailing blank-line padding). -/
def splitPadding (text : List String) : List String × List String :=
  ((text.reverse.dropWhile isBlank).reverse, (text.reverse.takeWhile isBlank).reverse)

/-- Find the first closing `---` line: returns the lines before it and the
lines after it. -/
def splitAtClose : List String → Option (List String × List String)
  | [] => none
  | l :: rest =>
    if l = "---" then some ([], rest)
    else
      match splitAtClose rest with
      | some (f, a) => some (l :: f, a)
      | none => none

/-- Modelled from the spec: `split_frontmatter` (missing `task_helpers`)
parses a markdown document into (frontmatter block, body, trailing
padding). -/
def split_frontmatter (text : List String) : Option (List String) × List String × List String :=
  match text with
  | l :: rest =>
    if l = "---" then
      match splitAtClose rest with
      | some (front, after) =>
        let bp := splitPadding after
        (some front, bp.1, bp.2)
      | none =>
        let bp := splitPadding (l :: rest)
        (none, bp.1, bp.2)
    else
      let bp := splitPadding (l :: rest)
      (none, bp.1, bp.2)
  | [] => (none, [], [])

/-- Modelled from the spec: `build_document` (missing `task_helpers`)
serializes (frontmatter block, body, padding) back to document text. -/
def build_document (front : Option (List String)) (body pad : List String) : List String :=
  (match front with
   | none => []
   | some f => "---" :: f ++ ["---"]) ++ body ++ pad

theorem splitPadding_append (t : List String) :
    (splitPadding t).1 ++ (splitPadding t).2 = t := by
  unfold splitPadding
  simp only
  rw [← List.reverse_append, List.takeWhile_append_dropWhile, List.reverse_reverse]

theorem splitAtClose_eq {ls f a : List String} (h : splitAtClose ls = some (f, a)) :
    ls = f ++ "---" :: a := by
  induction ls generalizing f a with
  | nil => simp [splitAtClose] at h
  | cons l rest ih =>
    by_cases hl : l = "---"
    · simp [splitAtClose, hl] at h
      obtain ⟨hf, ha⟩ := h
      subst hf; subst ha; simp [hl]
    · simp only [splitAtClose, if_neg hl] at h
      cases hrec : splitAtClose rest with
      | none => rw [hrec] at h; simp at h
      | some p =>
        obtain ⟨f', a'⟩ := p
        rw [hrec] at h
        simp at h
        obtain ⟨hf, ha⟩ := h
        subst hf; subst ha
        simp [ih hrec]

/-- C2: serializing the result of parsing is lossless: `build_document`
applied to the triple produced by `split_frontmatter` yields the original
document text line for line (hence character for character). -/
theorem build_document_split_frontmatter (text : List String) :
    build_document (split_frontmatter text).1 (split_frontmatter text).2.1
      (split_frontmatter text).2.2 = text := by
  match text with
  | [] => rfl
  | l :: rest =>
    by_cases hl : l = "---"
    · cases hc : splitAtClose rest with
      | none =>
        simp only [split_frontmatter, if_pos hl, hc, build_document]
        exact splitPadding_append (l :: rest)
      | some p =>
        obtain ⟨front, after⟩ := p
        simp only [split_frontmatter, if_pos hl, hc, build_document]
        rw [splitAtClose_eq hc, hl]
        simp [List.append_assoc, splitPadding_append]
    · simp only [split_frontmatter, if_neg hl, build_document]
      exact splitPadding_append (l :: rest)

/-! ## Frontmatter scalar operations

Modelled from the spec: the frontmatter is a "key-value block"; the missing
`task_helpers.set_scalar` sets a key to a value (`stage_move` uses it for
`lane`, `agent`, `shell_pid`).  A scalar line has the form `key: value`. -/

/-- Render one frontmatter scalar line. -/
def scalarLine (key value : String) : String :=
  key ++ ": " ++ value

/-- Modelled from the spec: `set_scalar` (missing `task_helpers`) sets a
frontmatter key, replacing the lines carrying that key or appending a fresh
line (creating the block when the document has none). -/
def set_scalar (fm : Option (List String)) (key value : String) : Option (List String) :=
  let line := scalarLine key value
  match fm with
  | none => some [line]
  | some lines =>
    if lines.any (fun l => lineStarts (key ++ ": ") l) then
      some (lines.map (fun l => if lineStarts (key ++ ": ") l then line else l))
    else
      some (lines ++ [line])

/-- Read a frontmatter scalar back: the value of the first line carrying the
key. -/
def getScalar (fm : Option (List String)) (key : String) : Option String :=
  match fm with
  | none => none
  | some lines =>
    match lines.find? (fun l => lineStarts (key ++ ": ") l) with
    | some l => some (strDropChars l (key.length + 2))
    | none => none

theorem strDropChars_append (a b : String) :
    strDropChars (a ++ b) a.length = b := by
  unfold strDropChars
  rw [String.data_append]
  have h : List.drop a.length (a.data ++ b.data) = b.data := List.drop_left a.data b.data
  rw [h]

theorem lineStarts_scalarLine (key value : String) :
    lineStarts (key ++ ": ") (scalarLine key value) = true := by
  unfold lineStarts scalarLine
  rw [String.data_append]
  simp [List.isPrefixOf_iff_prefix]

theorem strDropChars_scalarLine (key value : String) :
    strDropChars (scalarLine key value) (key.length + 2) = value := by
  unfold scalarLine
  have htwo : (": ").length = 2 := rfl
  have hlen : (key ++ ": ").length = key.length + 2 := by
    rw [String.length_append, htwo]
  rw [← hlen]
  exact strDropChars_append _ _

theorem find?_map_replace {α : Type} (p : α → Bool) (new : α) (hp : p new = true)
    (l : List α) (h : l.any p = true) :
    (l.map (fun x => if p x then new else x)).find? p = some new := by
  induction l with
  | nil => simp at h
  | cons a t ih =>
    by_cases ha : p a = true
    · simp [List.find?, ha, hp]
    · simp only [Bool.not_eq_true] at ha
      simp only [List.any_cons, ha, Bool.false_or] at h
      simp [List.find?, ha, ih h]

theorem find?_map_other {α : Type} (p q : α → Bool) (new : α)
    (hpq : ∀ x, q x = true → p x = false) (hnew : p new = false) (l : List α) :
    (l.map (fun x => if q x then new else x)).find? p = l.find? p := by
  induction l with
  | nil => rfl
  | cons a t ih =>
    by_cases ha : q a = true
    · have hpa : p a = false := hpq a ha
      simp [List.find?, ha, hnew, hpa, ih]
    · simp only [Bool.not_eq_true] at ha
      by_cases hpa : p a = true
      · simp [List.find?, ha, hpa]
      · simp only [Bool.not_eq_true] at hpa
        simp [List.find?, ha, hpa, ih]

theorem find?_none_of_all_neg {α : Type} (p : α → Bool) (l : List α)
    (h : l.any p = false) : l.find? p = none := by
  induction l with
  | nil => rfl
  | cons a t ih =>
    simp only [List.any_cons, Bool.or_eq_false_iff] at h
    simp [List.find?, h.1, ih h.2]

/-- Setting a key then reading it back yields the written value. -/
theorem getScalar_set_scalar (fm : Option (List String)) (key value : String) :
    getScalar (set_scalar fm key value) key = some value := by
  cases fm with
  | none =>
    simp [set_scalar, getScalar, List.find?, lineStarts_scalarLine,
      strDropChars_scalarLine]
  | some lines =>
    by_cases h : lines.any (fun l => lineStarts (key ++ ": ") l) = true
    · simp only [set_scalar, if_pos h, getScalar]
      rw [find?_map_replace _ _ (lineStarts_scalarLine key value) _ h]
      simp [strDropChars_scalarLine]
    · simp only [Bool.not_eq_true] at h
      simp only [set_scalar, h, Bool.false_eq_true, if_false, getScalar]
      rw [List.find?_append, find?_none_of_all_neg _ _ h]
      simp [List.find?, lineStarts_scalarLine, strDropChars_scalarLine]

/-- Setting one key leaves the scalar of a key with a different leading
character unchanged. -/
theorem getScalar_set_scalar_other (fm : Option (List String)) (k₁ k₂ v₂ : String)
    (hd : ∀ s, lineStarts (k₂ ++ ": ") s = true → lineStarts (k₁ ++ ": ") s = false) :
    getScalar (set_scalar fm k₂ v₂) k₁ = getScalar fm k₁ := by
  have hnew : lineStarts (k₁ ++ ": ") (scalarLine k₂ v₂) = false :=
    hd _ (lineStarts_scalarLine k₂ v₂)
  cases fm with
  | none => simp [set_scalar, getScalar, List.find?, hnew]
  | some lines =>
    by_cases h : lines.any (fun l => lineStarts (k₂ ++ ": ") l) = true
    · simp only [set_scalar, if_pos h, getScalar]
      rw [find?_map_other _ _ _ hd hnew]
    · simp only [Bool.not_eq_true] at h
      simp only [set_scalar, h, Bool.false_eq_true, if_false, getScalar]
      rw [List.find?_append]
      simp [List.find?, hnew]

/-- Two markers whose first characters differ never match the same line. -/
theorem lineStarts_disjoint {c₁ c₂ : Char} {p₁ p₂ : String} {t₁ t₂ : List Char}
    (h₁ : p₁.data = c₁ :: t₁) (h₂ : p₂.data = c₂ :: t₂) (hne : c₁ ≠ c₂) :
    ∀ s, lineStarts p₂ s = true → lineStarts p₁ s = false := by
  intro s h
  unfold lineStarts at h ⊢
  rw [h₂] at h
  rw [h₁]
  cases hs : s.data with
  | nil => rw [hs] at h; simp [List.isPrefixOf] at h
  | cons b bs =>
    rw [hs] at h
    simp only [List.isPrefixOf, Bool.and_eq_true, beq_iff_eq] at h
    simp [List.isPrefixOf, h.1 ▸ hne]

/-! ## Activity log

Modelled from the spec: the Activity Log component "parses/serializes the
chronological log embedded in a document body".  An entry line, as built by
`stage_move`, has the form
`- TIMESTAMP – AGENT – shell_pid=PID – lane=LANE – NOTE`. -/

/-- A structured activity-log entry. -/
structure ActivityEntry where
  timestamp : String
  agent : String
  shell_pid : String
  lane : String
  note : String
deriving DecidableEq, Repr

/-- An entry line of the activity log starts with a dash bullet. -/
def isActivityLine (l : String) : Bool :=
  lineStarts "- " l

/-- Strip a field tag such as `lane=` from a field of an entry line. -/
def stripTag (p s : String) : String :=
  if lineStarts p s then strDropChars s p.length else s

/-- Split a character list at every occurrence of a non-empty separator,
leftmost-first (the semantics of Python `str.split(sep)`); the fuel is an
upper bound on the input length, making the recursion structural. -/
def splitSepGo (sep : List Char) : Nat → List Char → List Char → List (List Char)
  | 0, rest, acc => [acc.reverse ++ rest]
  | _ + 1, [], acc => [acc.reverse]
  | n + 1, c :: rest, acc =>
    if sep.isPrefixOf (c :: rest) then
      acc.reverse :: splitSepGo sep n ((c :: rest).drop sep.length) []
    else
      splitSepGo sep n rest (c :: acc)

/-- Split a string on a separator (Python `str.split(sep)`). -/
def splitSep (sep s : String) : List String :=
  (splitSepGo sep.data s.data.length s.data []).map String.mk

/-- Modelled from the spec: parsing one activity-log entry line into its
fields (timestamp, agent, shell PID, lane, note). -/
def parseActivity (l : String) : ActivityEntry :=
  match splitSep " – " (strDropChars l 2) with
  | [t, a, pid, lane, note] =>
    { timestamp := t, agent := a, shell_pid := stripTag "shell_pid=" pid,
      lane := stripTag "lane=" lane, note := note }
  | _ => { timestamp := "", agent := "", shell_pid := "", lane := "", note := l }

/-- Modelled from the spec: `activity_entries` (missing `task_helpers`)
parses the chronological activity log embedded in a document body. -/
def activity_entries (body : List String) : List ActivityEntry :=
  (body.filter isActivityLine).map parseActivity

/-- Modelled from the spec: `append_activity_log` (missing `task_helpers`)
appends one entry line at the end of the body's activity log. -/
def append_activity_log (body : List String) (entry : String) : List String :=
  body ++ [entry]

theorem activity_entries_snoc (body : List String) (entry : String)
    (h : isActivityLine entry = true) :
    activity_entries (append_activity_log body entry) =
      activity_entries body ++ [parseActivity entry] := by
  unfold activity_entries append_activity_log
  rw [List.filter_append, List.map_append]
  simp [List.filter, h]

/-- C7: the activity log is chronological and appends preserve it: parsing
the body produced by `append_activity_log` yields the entries of the
original body, in order, followed by exactly the one new entry last. -/
theorem activity_entries_append_activity_log (body : List String) (entry : String)
    (h : isActivityLine entry = true) :
    activity_entries (append_activity_log body entry) =
      activity_entries body ++ [parseActivity entry] :=
  activity_entries_snoc body entry h

/-- Witness for C7 at a concrete body and entry. -/
theorem activity_entries_append_activity_log_witness :
    isActivityLine "- t2 – agentB – shell_pid=7 – lane=review – go" = true ∧
    activity_entries (append_activity_log
        ["# WP01", "- t1 – agentA – shell_pid=3 – lane=backlog – start"]
        "- t2 – agentB – shell_pid=7 – lane=review – go") =
      activity_entries ["# WP01", "- t1 – agentA – shell_pid=3 – lane=backlog – start"]
        ++ [parseActivity "- t2 – agentB – shell_pid=7 – lane=review – go"] :=
  ⟨by decide, activity_entries_append_activity_log _ _ (by decide)⟩

/-! ## Work packages and effects -/

/-- Modelled from the spec: `WorkPackage` (missing `task_helpers`) bundles a
located work-package file: its feature, path, current lane, path below the
lane directory, and the parsed document triple. -/
structure WorkPackage where
  feature : String
  path : String
  current_lane : String
  relative_subpath : String
  frontmatter : Option (List String)
  body : List String
  padding : List String
deriving DecidableEq, Repr

/-- Modelled from the spec: the work package's `agent` frontmatter metadata. -/
def WorkPackage.agent (wp : WorkPackage) : Option String :=
  getScalar wp.frontmatter "agent"

/-- Modelled from the spec: the work package's `shell_pid` frontmatter
metadata. -/
def WorkPackage.shell_pid (wp : WorkPackage) : Option String :=
  getScalar wp.frontmatter "shell_pid"

/-- Modelled from the spec: the work package's identifier from frontmatter. -/
def WorkPackage.work_package_id (wp : WorkPackage) : Option String :=
  getScalar wp.frontmatter "work_package_id"

/-- Modelled from the spec: the work package's title from frontmatter. -/
def WorkPackage.title (wp : WorkPackage) : Option String :=
  getScalar wp.frontmatter "title"

/-- Modelled from the spec: the work package's assignee from frontmatter. -/
def WorkPackage.assignee (wp : WorkPackage) : Option String :=
  getScalar wp.frontmatter "assignee"

/-- Observable side effects of the CLI: filesystem writes, git subprocess
calls, terminal output, process exit, and the acceptance finalization. -/
inductive Effect where
  | mkdirP (dir : String)
  | writeFile (path : String) (content : List String)
  | gitAdd (path : String)
  | gitRm (path : String)
  | printLine (s : String)
  | exitCode (n : Nat)
  | performAccept (mode actor : String) (tests : List String) (auto_commit : Bool)
deriving DecidableEq, Repr

/-- A path relative to the repository root (Python `path.relative_to`). -/
def relTo (p root : String) : String :=
  strDropChars p (root.length + 1)

/-- The activity-log line `stage_move` and `history_command` build. -/
def logLine (timestamp agent shell_pid lane note : String) : String :=
  "- " ++ timestamp ++ " – " ++ agent ++ " – shell_pid=" ++ shell_pid
    ++ " – lane=" ++ lane ++ " – " ++ note

/-- `stage_move` from the source: compute the target path; on a dry run stop
there; otherwise rewrite the frontmatter, append the activity-log entry,
write the document at the target path, `git add` it, and `git rm` the old
file when the paths differ. -/
def stage_move (repo_root : String) (wp : WorkPackage)
    (target_lane agent shell_pid note timestamp : String) (dry_run : Bool) :
    String × List Effect :=
  let target_dir := repo_root ++ "/kitty-specs/" ++ wp.feature ++ "/tasks/" ++ target_lane
  let new_path := target_dir ++ "/" ++ wp.relative_subpath
  if dry_run then (new_path, [])
  else
    let fm₁ := set_scalar wp.frontmatter "lane" target_lane
    let fm₂ := set_scalar fm₁ "agent" agent
    let fm₃ := if shell_pid = "" then fm₂ else set_scalar fm₂ "shell_pid" shell_pid
    let log_entry := logLine timestamp agent shell_pid target_lane note
    let new_body := append_activity_log wp.body log_entry
    let new_content := build_document fm₃ new_body wp.padding
    (new_path,
      [Effect.mkdirP target_dir,
       Effect.writeFile new_path new_content,
       Effect.gitAdd (relTo new_path repo_root)]
      ++ (if wp.path = new_path then [] else [Effect.gitRm (relTo wp.path repo_root)]))

theorem lineStarts_prepend (p x : String) : lineStarts p (p ++ x) = true := by
  unfold lineStarts
  rw [String.data_append]
  simp [List.isPrefixOf_iff_prefix]

theorem lineStarts_append_left {p s : String} (t : String)
    (h : lineStarts p s = true) : lineStarts p (s ++ t) = true := by
  unfold lineStarts at h ⊢
  rw [String.data_append]
  rw [List.isPrefixOf_iff_prefix] at h ⊢
  exact h.trans (List.prefix_append _ _)

theorem isActivityLine_logLine (timestamp agent shell_pid lane note : String) :
    isActivityLine (logLine timestamp agent shell_pid lane note) = true := by
  unfold isActivityLine logLine
  repeat (first
    | exact lineStarts_prepend _ _
    | apply lineStarts_append_left)

theorem marker_agent_not_lane :
    ∀ s, lineStarts ("agent" ++ ": ") s = true → lineStarts ("lane" ++ ": ") s = false :=
  lineStarts_disjoint (rfl : ("lane" ++ ": ").data = 'l' :: "ane: ".data)
    (rfl : ("agent" ++ ": ").data = 'a' :: "gent: ".data) (by decide)

theorem marker_shell_not_lane :
    ∀ s, lineStarts ("shell_pid" ++ ": ") s = true → lineStarts ("lane" ++ ": ") s = false :=
  lineStarts_disjoint (rfl : ("lane" ++ ": ").data = 'l' :: "ane: ".data)
    (rfl : ("shell_pid" ++ ": ").data = 's' :: "hell_pid: ".data) (by decide)

theorem marker_shell_not_agent :
    ∀ s, lineStarts ("shell_pid" ++ ": ") s = true → lineStarts ("agent" ++ ": ") s = false :=
  lineStarts_disjoint (rfl : ("agent" ++ ": ").data = 'a' :: "gent: ".data)
    (rfl : ("shell_pid" ++ ": ").data = 's' :: "hell_pid: ".data) (by decide)

/-- C1: a successful non-dry-run `stage_move` (1) rewrites the frontmatter so
that `lane` is the target lane, `agent` the resolved agent, and `shell_pid`
the shell PID when that is non-empty, (2) appends exactly one activity-log
entry to the body, (3) writes the resulting document at the target lane's
path and stages it via `git add`, and (4) removes the old file via `git rm`
exactly when the old and new paths differ. -/
theorem stage_move_moves (repo_root : String) (wp : WorkPackage)
    (target_lane agent shell_pid note timestamp : String) :
    (stage_move repo_root wp target_lane agent shell_pid note timestamp false).1
        = repo_root ++ "/kitty-specs/" ++ wp.feature ++ "/tasks/" ++ target_lane
            ++ "/" ++ wp.relative_subpath ∧
    ∃ fm' body',
      (stage_move repo_root wp target_lane agent shell_pid note timestamp false).2
        = [Effect.mkdirP (repo_root ++ "/kitty-specs/" ++ wp.feature ++ "/tasks/" ++ target_lane),
           Effect.writeFile
             (repo_root ++ "/kitty-specs/" ++ wp.feature ++ "/tasks/" ++ target_lane
               ++ "/" ++ wp.relative_subpath)
             (build_document fm' body' wp.padding),
           Effect.gitAdd (relTo (repo_root ++ "/kitty-specs/" ++ wp.feature ++ "/tasks/"
               ++ target_lane ++ "/" ++ wp.relative_subpath) repo_root)]
          ++ (if wp.path = repo_root ++ "/kitty-specs/" ++ wp.feature ++ "/tasks/"
                ++ target_lane ++ "/" ++ wp.relative_subpath then []
              else [Effect.gitRm (relTo wp.path repo_root)]) ∧
      getScalar fm' "lane" = some target_lane ∧
      getScalar fm' "agent" = some agent ∧
      (shell_pid ≠ "" → getScalar fm' "shell_pid" = some shell_pid) ∧
      activity_entries body' = activity_entries wp.body
          ++ [parseActivity (logLine timestamp agent shell_pid target_lane note)] := by
  refine ⟨rfl, ?_⟩
  refine ⟨(if shell_pid = "" then
      set_scalar (set_scalar wp.frontmatter "lane" target_lane) "agent" agent
    else
      set_scalar (set_scalar (set_scalar wp.frontmatter "lane" target_lane) "agent" agent)
        "shell_pid" shell_pid),
    append_activity_log wp.body (logLine timestamp agent shell_pid target_lane note),
    ?_, ?_, ?_, ?_, ?_⟩
  · by_cases hpid : shell_pid = "" <;>
      simp only [stage_move, Bool.false_eq_true, if_false, hpid, if_pos, if_neg,
        ite_true, ite_false]
  · by_cases hpid : shell_pid = ""
    · rw [if_pos hpid]
      rw [getScalar_set_scalar_other _ "lane" "agent" agent marker_agent_not_lane]
      exact getScalar_set_scalar _ _ _
    · rw [if_neg hpid]
      rw [getScalar_set_scalar_other _ "lane" "shell_pid" shell_pid marker_shell_not_lane]
      rw [getScalar_set_scalar_other _ "lane" "agent" agent marker_agent_not_lane]
      exact getScalar_set_scalar _ _ _
  · by_cases hpid : shell_pid = ""
    · rw [if_pos hpid]
      exact getScalar_set_scalar _ _ _
    · rw [if_neg hpid]
      rw [getScalar_set_scalar_other _ "agent" "shell_pid" shell_pid marker_shell_not_agent]
      exact getScalar_set_scalar _ _ _
  · intro hpid
    rw [if_neg hpid]
    exact getScalar_set_scalar _ _ _
  · exact activity_entries_snoc _ _
      (isActivityLine_logLine timestamp agent shell_pid target_lane note)

/-- Witness for C1 at a concrete work package (non-empty shell PID, old and
new paths differing). -/
theorem stage_move_moves_witness :
    ("7" : String) ≠ "" ∧
    (stage_move "/r"
        { feature := "f1", path := "/r/kitty-specs/f1/tasks/backlog/WP01.md",
          current_lane := "backlog", relative_subpath := "WP01.md",
          frontmatter := some ["lane: backlog"], body := [],
          padding := [""] }
        "review" "alice" "7" "go" "t1" false).1
      = "/r" ++ "/kitty-specs/" ++ "f1" ++ "/tasks/" ++ "review" ++ "/" ++ "WP01.md" := by
  refine ⟨by decide, ?_⟩
  exact (stage_move_moves "/r"
    { feature := "f1", path := "/r/kitty-specs/f1/tasks/backlog/WP01.md",
      current_lane := "backlog", relative_subpath := "WP01.md",
      frontmatter := some ["lane: backlog"], body := [],
      padding := [""] }
    "review" "alice" "7" "go" "t1").1

/-! ## The move command -/

/-- Join strings with newlines (Python `"\n".join`). -/
def joinNL : List String → String
  | [] => ""
  | [s] => s
  | s :: rest => s ++ "\n" ++ joinNL rest

/-- Join strings with commas (Python `", ".join`). -/
def joinComma : List String → String
  | [] => ""
  | [s] => s
  | s :: rest => s ++ ", " ++ joinComma rest

/-- The final path component (Python `path.name`). -/
def baseName (p : String) : String :=
  (splitSep "/" p).getLastD p

/-- Modelled from the spec: `normalize_note` (missing `task_helpers`) falls
back to a default note naming the target lane when no note is given. -/
def normalize_note (note : Option String) (lane : String) : String :=
  pyOr note ("Moved to " ++ lane)

/-- The path named by one `git status --porcelain` line (after the
two-character status code and the space). -/
def statusEntryPath (line : String) : String :=
  strDropChars line 3

/-- Modelled from the spec: `detect_conflicting_wp_status` (missing
`task_helpers`) reports the working-tree status lines that name
work-package files of the feature other than the moving package's own old
and new paths. -/
def detect_conflicting_wp_status (status_lines : List String)
    (feature old_rel new_rel : String) : List String :=
  status_lines.filter (fun line =>
    let p := statusEntryPath line
    lineStarts ("kitty-specs/" ++ feature ++ "/tasks/") p
      && !(p = old_rel) && !(p = new_rel))

/-- Arguments of the `move` subcommand. -/
structure MoveArgs where
  feature : String
  work_package : String
  lane : String
  note : Option String
  agent : Option String
  assignee : Option String
  shell_pid : Option String
  timestamp : Option String
  dry_run : Bool
  force : Bool
deriving DecidableEq, Repr

/-- `move_command` from the source.  The located work package, the current
clock and the `git status` lines are inputs; a raised `TaskCliError` is the
`error` case and carries no effect trace, matching the source where both
guarded raises happen before any file or git mutation. -/
def move_command (repo_root now : String) (wp : WorkPackage)
    (status_lines : List String) (args : MoveArgs) :
    Except TaskCliError (List Effect) :=
  if wp.current_lane = args.lane then
    .error ⟨"Work package already in lane '" ++ args.lane ++ "'."⟩
  else
    let timestamp := pyOr args.timestamp now
    let agent := pyOr args.agent (pyOr wp.agent "system")
    let shell_pid := pyOr args.shell_pid (pyOr wp.shell_pid "")
    let note := normalize_note args.note args.lane
    let new_path := repo_root ++ "/kitty-specs/" ++ args.feature ++ "/tasks/"
      ++ args.lane ++ "/" ++ wp.relative_subpath
    let conflicts := detect_conflicting_wp_status status_lines args.feature
      (relTo wp.path repo_root) (relTo new_path repo_root)
    if !conflicts.isEmpty && !args.force then
      .error ⟨"Other work-package files are staged or modified:\n" ++ joinNL conflicts
        ++ "\n\nClear or commit these changes, or re-run with --force."⟩
    else
      let sm := stage_move repo_root wp args.lane agent shell_pid note timestamp args.dry_run
      if args.dry_run then
        .ok (sm.2 ++
          [Effect.printLine ("[dry-run] Would move " ++ pyOr wp.work_package_id (baseName wp.path)
              ++ " to lane '" ++ args.lane ++ "'"),
           Effect.printLine ("[dry-run] New path: " ++ relTo sm.1 repo_root)])
      else
        .ok (sm.2 ++
          [Effect.printLine ("✅ Moved " ++ pyOr wp.work_package_id (baseName wp.path)
              ++ " → " ++ args.lane),
           Effect.printLine ("   " ++ relTo wp.path repo_root ++ " → " ++ relTo sm.1 repo_root),
           Effect.printLine ("   Logged: " ++ logLine timestamp agent shell_pid args.lane note)])

/-- C8: a `move` whose target lane equals the current lane raises
`TaskCliError` ("Work package already in lane ..."); the error is raised
before any file or git step, so the result carries no effects. -/
theorem move_command_same_lane (repo_root now : String) (wp : WorkPackage)
    (status_lines : List String) (args : MoveArgs)
    (h : wp.current_lane = args.lane) :
    move_command repo_root now wp status_lines args
      = .error ⟨"Work package already in lane '" ++ args.lane ++ "'."⟩ := by
  unfold move_command
  rw [if_pos h]

/-- Witness for C8 at a concrete work package already in `review`. -/
theorem move_command_same_lane_witness :
    move_command "/r" "t0"
        { feature := "f1", path := "/r/kitty-specs/f1/tasks/review/WP01.md",
          current_lane := "review", relative_subpath := "WP01.md",
          frontmatter := none, body := [], padding := [] }
        []
        { feature := "f1", work_package := "WP01", lane := "review", note := none,
          agent := none, assignee := none, shell_pid := none, timestamp := none,
          dry_run := false, force := false }
      = .error ⟨"Work package already in lane '" ++ "review" ++ "'."⟩ :=
  move_command_same_lane "/r" "t0" _ [] _ rfl

/-- C3: without `--force`, a non-empty conflict list from
`detect_conflicting_wp_status` against the working-tree status makes the
move fail with a `TaskCliError` before `stage_move` runs — the error result
carries no effects, so nothing is written, moved, or staged — while with
`--force` the conflicts are ignored and the move proceeds. -/
theorem move_command_conflicts (repo_root now : String) (wp : WorkPackage)
    (status_lines : List String) (args : MoveArgs)
    (hlane : ¬ wp.current_lane = args.lane) :
    (detect_conflicting_wp_status status_lines args.feature (relTo wp.path repo_root)
        (relTo (repo_root ++ "/kitty-specs/" ++ args.feature ++ "/tasks/" ++ args.lane
          ++ "/" ++ wp.relative_subpath) repo_root) ≠ [] →
      args.force = false →
      ∃ e, move_command repo_root now wp status_lines args = .error e) ∧
    (args.force = true →
      ∃ effs, move_command repo_root now wp status_lines args = .ok effs) := by
  constructor
  · intro hc hf
    have hne : (detect_conflicting_wp_status status_lines args.feature
        (relTo wp.path repo_root)
        (relTo (repo_root ++ "/kitty-specs/" ++ args.feature ++ "/tasks/" ++ args.lane
          ++ "/" ++ wp.relative_subpath) repo_root)).isEmpty = false := by
      simpa [List.isEmpty_iff] using hc
    simp only [move_command, if_neg hlane]
    rw [if_pos (by rw [hne, hf]; rfl)]
    exact ⟨_, rfl⟩
  · intro hf
    simp only [move_command, if_neg hlane]
    rw [if_neg (by rw [hf]; simp)]
    by_cases hd : args.dry_run = true
    · rw [if_pos hd]; exact ⟨_, rfl⟩
    · rw [if_neg hd]; exact ⟨_, rfl⟩

/-- Witness for C3: a staged sibling work-package file of the same feature
blocks the un-forced move of a concrete work package. -/
theorem move_command_conflicts_witness :
    detect_conflicting_wp_status ["M  kitty-specs/f1/tasks/backlog/WP02.md"] "f1"
        (relTo "/r/kitty-specs/f1/tasks/backlog/WP01.md" "/r")
        (relTo ("/r" ++ "/kitty-specs/" ++ "f1" ++ "/tasks/" ++ "review"
          ++ "/" ++ "WP01.md") "/r") ≠ [] ∧
    ∃ e, move_command "/r" "t0"
        { feature := "f1", path := "/r/kitty-specs/f1/tasks/backlog/WP01.md",
          current_lane := "backlog", relative_subpath := "WP01.md",
          frontmatter := none, body := [], padding := [] }
        ["M  kitty-specs/f1/tasks/backlog/WP02.md"]
        { feature := "f1", work_package := "WP01", lane := "review", note := none,
          agent := none, assignee := none, shell_pid := none, timestamp := none,
          dry_run := false, force := false }
      = .error e :=
  ⟨by decide,
    (move_command_conflicts "/r" "t0"
      { feature := "f1", path := "/r/kitty-specs/f1/tasks/backlog/WP01.md",
        current_lane := "backlog", relative_subpath := "WP01.md",
        frontmatter := none, body := [], padding := [] }
      ["M  kitty-specs/f1/tasks/backlog/WP02.md"]
      { feature := "f1", work_package := "WP01", lane := "review", note := none,
        agent := none, assignee := none, shell_pid := none, timestamp := none,
        dry_run := false, force := false }
      (by decide)).1 (by decide) rfl⟩

/-! ## The history command and dry-run framing -/

/-- Arguments of the `history` subcommand. -/
structure HistoryArgs where
  feature : String
  work_package : String
  note : String
  lane : Option String
  agent : Option String
  assignee : Option String
  shell_pid : Option String
  timestamp : Option String
  update_shell : Bool
  dry_run : Bool
deriving DecidableEq, Repr

/-- `history_command` from the source: resolve agent, shell PID, lane and
note, build the log entry and the updated frontmatter, and either print the
would-be entry (dry run) or write the document back and `git add` it. -/
def history_command (repo_root now : String) (wp : WorkPackage)
    (args : HistoryArgs) : Except TaskCliError (List Effect) :=
  let agent := pyOr args.agent (pyOr wp.agent "system")
  let shell_pid := pyOr args.shell_pid (pyOr wp.shell_pid "")
  match ensure_lane (pyOr args.lane wp.current_lane) with
  | .error e => .error e
  | .ok lane =>
    let timestamp := pyOr args.timestamp now
    let note := normalize_note (some args.note) lane
    let fm₁ := if lane = wp.current_lane then wp.frontmatter
      else set_scalar wp.frontmatter "lane" lane
    let log_entry := logLine timestamp agent shell_pid lane note
    let updated_body := append_activity_log wp.body log_entry
    let fm₂ := if args.update_shell && !(shell_pid = "") then
        set_scalar fm₁ "shell_pid" shell_pid
      else fm₁
    let fm₃ := match args.assignee with
      | some a => set_scalar fm₂ "assignee" a
      | none => fm₂
    let fm₄ := match args.agent with
      | some a => if a = "" then fm₃ else set_scalar fm₃ "agent" agent
      | none => fm₃
    if args.dry_run then
      .ok [Effect.printLine ("[dry-run] Would append activity entry: " ++ log_entry)]
    else
      .ok [Effect.writeFile wp.path (build_document fm₄ updated_body wp.padding),
           Effect.gitAdd (relTo wp.path repo_root),
           Effect.printLine ("📝 Appended activity for "
             ++ pyOr wp.work_package_id (baseName wp.path)),
           Effect.printLine ("   " ++ log_entry)]

/-- An effect that changes the filesystem, the git state, or runs the
acceptance finalization. -/
def isMutating : Effect → Bool
  | .mkdirP _ => true
  | .writeFile _ _ => true
  | .gitAdd _ => true
  | .gitRm _ => true
  | .printLine _ => false
  | .exitCode _ => false
  | .performAccept _ _ _ _ => true

/-- C9: with `--dry-run`, no file content is written and no git command is
run: `stage_move` returns the computed target path with an empty effect
trace, a dry-run `move` only prints, and a dry-run `history` returns after
printing exactly the would-be log entry. -/
theorem dry_run_frame (repo_root now : String) (wp : WorkPackage)
    (status_lines : List String) (margs : MoveArgs) (hargs : HistoryArgs)
    (hm : margs.dry_run = true) (hh : hargs.dry_run = true) :
    (∀ target_lane agent shell_pid note timestamp,
      stage_move repo_root wp target_lane agent shell_pid note timestamp true
        = (repo_root ++ "/kitty-specs/" ++ wp.feature ++ "/tasks/" ++ target_lane
            ++ "/" ++ wp.relative_subpath, [])) ∧
    (∀ es, move_command repo_root now wp status_lines margs = .ok es →
      es.all (fun e => !isMutating e) = true) ∧
    (∀ es, history_command repo_root now wp hargs = .ok es →
      ∃ s, es = [Effect.printLine ("[dry-run] Would append activity entry: " ++ s)]) := by
  refine ⟨fun _ _ _ _ _ => rfl, ?_, ?_⟩
  · intro es h
    simp only [move_command] at h
    by_cases h₁ : wp.current_lane = margs.lane
    · rw [if_pos h₁] at h; exact absurd h (by simp)
    · rw [if_neg h₁] at h
      by_cases h₂ : (!(detect_conflicting_wp_status status_lines margs.feature
          (relTo wp.path repo_root)
          (relTo (repo_root ++ "/kitty-specs/" ++ margs.feature ++ "/tasks/" ++ margs.lane
            ++ "/" ++ wp.relative_subpath) repo_root)).isEmpty && !margs.force) = true
      · rw [if_pos h₂] at h; exact absurd h (by simp)
      · rw [if_neg h₂, if_pos hm] at h
        cases h
        simp [stage_move, hm, isMutating]
  · intro es h
    simp only [history_command] at h
    cases he : ensure_lane (pyOr hargs.lane wp.current_lane) with
    | error e => rw [he] at h; exact absurd h (by simp)
    | ok lane =>
      rw [he] at h
      simp only [if_pos hh, ite_true] at h
      cases h
      exact ⟨_, rfl⟩

/-- Witness for C9 at a concrete dry-run move and history invocation. -/
theorem dry_run_frame_witness :
    ∃ es, move_command "/r" "t0"
        { feature := "f1", path := "/r/kitty-specs/f1/tasks/backlog/WP01.md",
          current_lane := "backlog", relative_subpath := "WP01.md",
          frontmatter := none, body := [], padding := [] }
        []
        { feature := "f1", work_package := "WP01", lane := "review", note := none,
          agent := none, assignee := none, shell_pid := none, timestamp := none,
          dry_run := true, force := false }
      = .ok es ∧ es.all (fun e => !isMutating e) = true := by
  refine ⟨_, rfl, ?_⟩
  exact (dry_run_frame "/r" "t0"
    { feature := "f1", path := "/r/kitty-specs/f1/tasks/backlog/WP01.md",
      current_lane := "backlog", relative_subpath := "WP01.md",
      frontmatter := none, body := [], padding := [] }
    []
    { feature := "f1", work_package := "WP01", lane := "review", note := none,
      agent := none, assignee := none, shell_pid := none, timestamp := none,
      dry_run := true, force := false }
    { feature := "f1", work_package := "WP01", note := "n", lane := none,
      agent := none, assignee := none, shell_pid := none, timestamp := none,
      update_shell := false, dry_run := true }
    rfl rfl).2.1 _ rfl

/-! ## The rollback command -/

/-- Arguments of the `rollback` subcommand. -/
structure RollbackArgs where
  feature : String
  work_package : String
  note : Option String
  agent : Option String
  assignee : Option String
  shell_pid : Option String
  timestamp : Option String
  dry_run : Bool
  force : Bool
deriving DecidableEq, Repr

/-- The all-empty activity entry (Python dict-lookup default). -/
def emptyEntry : ActivityEntry :=
  ⟨"", "", "", "", ""⟩

/-- `rollback_command` from the source: with fewer than two activity entries
it raises `TaskCliError`; otherwise the previous lane is the second-to-last
entry's `lane` field validated by `ensure_lane`, and the rollback is
executed as a `move` to that lane with agent/shell-PID defaults taken from
the last entry. -/
def rollback_command (repo_root now : String) (wp : WorkPackage)
    (status_lines : List String) (args : RollbackArgs) :
    Except TaskCliError (List Effect) :=
  let entries := activity_entries wp.body
  if entries.length < 2 then
    .error ⟨"Not enough activity entries to determine the previous lane."⟩
  else
    match ensure_lane (entries.getD (entries.length - 2) emptyEntry).lane with
    | .error e => .error e
    | .ok previous_lane =>
      let note := pyOr args.note ("Rolled back to " ++ previous_lane)
      let last := entries.getD (entries.length - 1) emptyEntry
      move_command repo_root now wp status_lines
        { feature := args.feature, work_package := args.work_package,
          lane := previous_lane, note := some note,
          agent := some (pyOr args.agent last.agent),
          assignee := args.assignee,
          shell_pid := some (pyOr args.shell_pid last.shell_pid),
          timestamp := some (pyOr args.timestamp now),
          dry_run := args.dry_run, force := args.force }

theorem getD_append_pair_left {α : Type} (l : List α) (a b d : α) :
    (l ++ [a, b]).getD l.length d = a := by
  induction l with
  | nil => rfl
  | cons x t ih => simpa using ih

theorem getD_append_pair_right {α : Type} (l : List α) (a b d : α) :
    (l ++ [a, b]).getD (l.length + 1) d = b := by
  induction l with
  | nil => rfl
  | cons x t ih => simpa using ih

/-- C10: a `rollback` with fewer than two activity entries fails with a
`TaskCliError` (carrying no effects, so nothing is modified); otherwise the
target lane is the second-to-last activity entry's `lane` field, validated
by `ensure_lane`, and the rollback is executed as a `move` to that lane. -/
theorem rollback_command_previous_lane (repo_root now : String) (wp : WorkPackage)
    (status_lines : List String) (args : RollbackArgs) :
    ((activity_entries wp.body).length < 2 →
      rollback_command repo_root now wp status_lines args
        = .error ⟨"Not enough activity entries to determine the previous lane."⟩) ∧
    (∀ last prev rest, (activity_entries wp.body).reverse = last :: prev :: rest →
      rollback_command repo_root now wp status_lines args
        = match ensure_lane prev.lane with
          | .error e => .error e
          | .ok previous_lane =>
            move_command repo_root now wp status_lines
              { feature := args.feature, work_package := args.work_package,
                lane := previous_lane,
                note := some (pyOr args.note ("Rolled back to " ++ previous_lane)),
                agent := some (pyOr args.agent last.agent),
                assignee := args.assignee,
                shell_pid := some (pyOr args.shell_pid last.shell_pid),
                timestamp := some (pyOr args.timestamp now),
                dry_run := args.dry_run, force := args.force }) := by
  constructor
  · intro h
    unfold rollback_command
    rw [if_pos h]
  · intro last prev rest hrev
    have he : activity_entries wp.body = rest.reverse ++ [prev, last] := by
      rw [← List.reverse_reverse (activity_entries wp.body), hrev]
      simp
    unfold rollback_command
    rw [he]
    have hlen : (rest.reverse ++ [prev, last]).length = rest.length + 2 := by simp
    rw [if_neg (by rw [hlen]; omega)]
    have h₂ : (rest.reverse ++ [prev, last]).length - 2 = rest.reverse.length := by
      rw [hlen]; simp
    have h₁ : (rest.reverse ++ [prev, last]).length - 1 = rest.reverse.length + 1 := by
      rw [hlen]; simp
    rw [h₂, h₁, getD_append_pair_left, getD_append_pair_right]

/-- Witness for C10 at a concrete work package with two activity entries. -/
theorem rollback_command_previous_lane_witness :
    rollback_command "/r" "t9"
        { feature := "f1", path := "/r/kitty-specs/f1/tasks/review/WP01.md",
          current_lane := "review", relative_subpath := "WP01.md",
          frontmatter := none,
          body := ["- t1 – a – shell_pid=1 – lane=backlog – s",
                   "- t2 – b – shell_pid=2 – lane=review – m"],
          padding := [] }
        []
        { feature := "f1", work_package := "WP01", note := none, agent := none,
          assignee := none, shell_pid := none, timestamp := none,
          dry_run := false, force := false }
      = match ensure_lane (ActivityEntry.mk "t1" "a" "1" "backlog" "s").lane with
        | .error e => .error e
        | .ok previous_lane =>
          move_command "/r" "t9"
            { feature := "f1", path := "/r/kitty-specs/f1/tasks/review/WP01.md",
              current_lane := "review", relative_subpath := "WP01.md",
              frontmatter := none,
              body := ["- t1 – a – shell_pid=1 – lane=backlog – s",
                       "- t2 – b – shell_pid=2 – lane=review – m"],
              padding := [] }
            []
            { feature := "f1", work_package := "WP01",
              lane := previous_lane,
              note := some (pyOr none ("Rolled back to " ++ previous_lane)),
              agent := some (pyOr none (ActivityEntry.mk "t2" "b" "2" "review" "m").agent),
              assignee := none,
              shell_pid := some (pyOr none (ActivityEntry.mk "t2" "b" "2" "review" "m").shell_pid),
              timestamp := some (pyOr none "t9"),
              dry_run := false, force := false } :=
  (rollback_command_previous_lane "/r" "t9"
    { feature := "f1", path := "/r/kitty-specs/f1/tasks/review/WP01.md",
      current_lane := "review", relative_subpath := "WP01.md",
      frontmatter := none,
      body := ["- t1 – a – shell_pid=1 – lane=backlog – s",
               "- t2 – b – shell_pid=2 – lane=review – m"],
      padding := [] }
    []
    { feature := "f1", work_package := "WP01", note := none, agent := none,
      assignee := none, shell_pid := none, timestamp := none,
      dry_run := false, force := false }).2
    (ActivityEntry.mk "t2" "b" "2" "review" "m")
    (ActivityEntry.mk "t1" "a" "1" "backlog" "s")
    [] (by decide)

/-! ## The list command and the summary report -/

/-- A markdown file found under a lane directory: its path relative to the
repository root and its text. -/
structure MDFile where
  path : String
  text : List String
deriving DecidableEq, Repr

/-- One output row of the `list` subcommand. -/
structure Row where
  lane : String
  id : String
  title : String
  assignee : String
  agent : String
  path : String
deriving DecidableEq, Repr

/-- Join strings with dots. -/
def joinDot : List String → String
  | [] => ""
  | [s] => s
  | s :: rest => s ++ "." ++ joinDot rest

/-- The final path component without its extension (Python `Path.stem`). -/
def stem (p : String) : String :=
  let n := baseName p
  let parts := splitSep "." n
  if parts.length ≤ 1 then n else joinDot parts.dropLast

/-- Python `str.strip` of double quotes. -/
def stripQuotes (s : String) : String :=
  String.mk (((s.data.dropWhile (fun c => c = '"')).reverse.dropWhile
    (fun c => c = '"')).reverse)

/-- One `list` row, from the source: parse the file, then take the id from
frontmatter (falling back to the file stem), and the stripped title,
assignee and agent. -/
def mkRow (lane : String) (f : MDFile) : Row :=
  let fm := (split_frontmatter f.text).1
  { lane := lane,
    id := pyOr (getScalar fm "work_package_id") (stem f.path),
    title := stripQuotes (pyOr (getScalar fm "title") ""),
    assignee := (pyOr (getScalar fm "assignee") "").trim,
    agent := (pyOr (getScalar fm "agent") "").trim,
    path := f.path }

/-- The files of one lane directory in sorted path order (Python
`sorted(lane_dir.rglob("*.md"))`). -/
def sortedFiles (files : List MDFile) : List MDFile :=
  files.mergeSort (fun a b => decide (a.path ≤ b.path))

/-- The rows one lane contributes: none when the lane directory does not
exist, otherwise one row per markdown file in sorted path order. -/
def laneRows (dirs : String → Option (List MDFile)) (lane : String) : List Row :=
  match dirs lane with
  | none => []
  | some files => (sortedFiles files).map (mkRow lane)

/-- The `for lane in LANES` loop of `list_command`, from the source. -/
def list_rows_go (dirs : String → Option (List MDFile)) : List String → List Row
  | [] => []
  | lane :: rest => laneRows dirs lane ++ list_rows_go dirs rest

/-- All rows the `list` subcommand emits, lane by lane over `LANES`. -/
def list_rows (dirs : String → Option (List MDFile)) : List Row :=
  list_rows_go dirs LANES

/-- Modelled from the spec: the aggregate acceptance summary built by the
missing `acceptance_support.collect_feature_summary`: per-lane work-package
items, outstanding acceptance issues, and an overall ok flag. -/
structure AcceptanceSummary where
  feature : String
  branch : Option String
  worktree_root : String
  lanes : List (String × List String)
  outstanding : List (String × List String)
  optional_missing : List String
  ok : Bool
deriving DecidableEq, Repr

/-- Python `summary.lanes.get(lane, [])`. -/
def lookupLane (m : List (String × List String)) (k : String) : List String :=
  match m.find? (fun p => p.1 == k) with
  | some p => p.2
  | none => []

/-- `_summary_to_text` from the source: header lines, one line per lane in
`LANES` with its count and items, then the outstanding items (or the
all-passed line) and the missing optional artifacts. -/
def summaryToText (s : AcceptanceSummary) : List String :=
  ["Feature: " ++ s.feature,
   "Branch: " ++ pyOr s.branch "N/A",
   "Worktree: " ++ s.worktree_root,
   "",
   "Work packages by lane:"]
  ++ LANES.map (fun lane =>
      let items := lookupLane s.lanes lane
      "  " ++ lane ++ " (" ++ toString items.length ++ "): "
        ++ (if items.isEmpty then "-" else joinComma items))
  ++ [""]
  ++ (if s.outstanding.isEmpty then ["All acceptance checks passed."]
      else "Outstanding items:" ::
        s.outstanding.flatMap (fun kv =>
          ("  " ++ kv.1 ++ ":") :: kv.2.map (fun v => "    - " ++ v)))
  ++ (if s.optional_missing.isEmpty then []
      else ["", "Optional artifacts missing: " ++ joinComma s.optional_missing])

theorem list_rows_go_eq_flatMap (dirs : String → Option (List MDFile)) (L : List String) :
    list_rows_go dirs L = L.flatMap (laneRows dirs) := by
  induction L with
  | nil => rfl
  | cons lane rest ih => simp [list_rows_go, ih]

theorem laneRows_lane_eq (dirs : String → Option (List MDFile)) (lane : String) :
    ∀ r ∈ laneRows dirs lane, r.lane = lane := by
  intro r hr
  unfold laneRows at hr
  cases h : dirs lane with
  | none => rw [h] at hr; simp at hr
  | some files =>
    rw [h] at hr
    obtain ⟨f, _, rfl⟩ := List.mem_map.1 hr
    rfl

theorem filter_flatMap_lane (f : String → List Row)
    (hf : ∀ l' r, r ∈ f l' → r.lane = l') :
    ∀ (L : List String), L.Nodup → ∀ l ∈ L,
      (L.flatMap f).filter (fun r => r.lane == l) = f l := by
  intro L
  induction L with
  | nil => intro _ l hl; simp at hl
  | cons x t ih =>
    intro hnd l hl
    have hx := List.nodup_cons.1 hnd
    rw [List.flatMap_cons, List.filter_append]
    rcases List.mem_cons.1 hl with rfl | hlt
    · have h₁ : (f l).filter (fun r => r.lane == l) = f l := by
        apply List.filter_eq_self.2
        intro r hr
        simp [hf l r hr]
      have h₂ : (t.flatMap f).filter (fun r => r.lane == l) = [] := by
        apply List.filter_eq_nil_iff.2
        intro r hr
        obtain ⟨l', hl', hr'⟩ := List.mem_flatMap.1 hr
        have : r.lane = l' := hf l' r hr'
        simp only [this, beq_iff_eq]
        intro he
        exact hx.1 (he ▸ hl')
      rw [h₁, h₂, List.append_nil]
    · have hxl : x ≠ l := fun he => hx.1 (he ▸ hlt)
      have h₁ : (f x).filter (fun r => r.lane == l) = [] := by
        apply List.filter_eq_nil_iff.2
        intro r hr
        simp only [hf x r hr, beq_iff_eq]
        exact hxl
      rw [h₁, List.nil_append]
      exact ih hx.2 l hlt

theorem LANES_nodup : LANES.Nodup := by decide

/-- C6: the status aggregation scans every lane: `list` iterates all lanes
of `LANES` in order, and for a lane whose directory exists it emits exactly
one row per markdown file, in sorted path order (the emitted files being a
permutation of the directory's files); and the summary text contains, for
every lane in `LANES`, the line reporting that lane's count and item
list. -/
theorem list_and_summary_scan_all_lanes (dirs : String → Option (List MDFile))
    (s : AcceptanceSummary) :
    list_rows dirs = LANES.flatMap (laneRows dirs) ∧
    (∀ lane ∈ LANES, ∀ files, dirs lane = some files →
      (list_rows dirs).filter (fun r => r.lane == lane)
          = (sortedFiles files).map (mkRow lane) ∧
        List.Perm (sortedFiles files) files ∧
        List.Pairwise (fun a b : MDFile => a.path ≤ b.path) (sortedFiles files)) ∧
    (∀ lane ∈ LANES,
      ("  " ++ lane ++ " (" ++ toString (lookupLane s.lanes lane).length ++ "): "
          ++ (if (lookupLane s.lanes lane).isEmpty then "-"
              else joinComma (lookupLane s.lanes lane)))
        ∈ summaryToText s) := by
  refine ⟨list_rows_go_eq_flatMap dirs LANES, ?_, ?_⟩
  · intro lane hl files hf
    refine ⟨?_, ?_, ?_⟩
    · rw [list_rows, list_rows_go_eq_flatMap]
      rw [filter_flatMap_lane (laneRows dirs) (laneRows_lane_eq dirs) LANES
        LANES_nodup lane hl]
      unfold laneRows
      rw [hf]
    · exact List.mergeSort_perm files _
    · have h := @List.sorted_mergeSort MDFile
        (fun a b : MDFile => decide (a.path ≤ b.path))
        (fun a b c hab hbc => by
          simp only [decide_eq_true_eq] at hab hbc ⊢
          exact le_trans hab hbc)
        (fun a b => by
          simp only [Bool.or_eq_true, decide_eq_true_eq]
          exact le_total a.path b.path)
        files
      exact h.imp (fun hab => by simpa using hab)
  · intro lane hl
    unfold summaryToText
    apply List.mem_append_left
    apply List.mem_append_left
    apply List.mem_append_left
    apply List.mem_append_right
    exact List.mem_map_of_mem _ hl

/-- Witness for C6 at a concrete lane layout and summary. -/
theorem list_and_summary_scan_all_lanes_witness :
    (list_rows (fun lane => if lane = "backlog"
        then some [{ path := "kitty-specs/f1/tasks/backlog/WP01.md", text := [] }]
        else none)).filter (fun r => r.lane == "backlog")
      = (sortedFiles [{ path := "kitty-specs/f1/tasks/backlog/WP01.md", text := [] }]).map
          (mkRow "backlog") :=
  ((list_and_summary_scan_all_lanes
      (fun lane => if lane = "backlog"
        then some [{ path := "kitty-specs/f1/tasks/backlog/WP01.md", text := [] }]
        else none)
      { feature := "f1", branch := none, worktree_root := "/r", lanes := [],
        outstanding := [], optional_missing := [], ok := true }).2.1
    "backlog" (by decide) _ rfl).1

/-! ## The acceptance workflow -/

/-- Modelled from the spec: the result of the acceptance finalization built
by the missing `acceptance_support.perform_acceptance`. -/
structure AcceptanceResult where
  accepted_at : String
  accepted_by : String
  accept_commit : Option String
  parent_commit : Option String
  notes : List String
  instructions : List String
  cleanup_instructions : List String
deriving DecidableEq, Repr

/-- Arguments of the `accept` subcommand. -/
structure AcceptArgs where
  feature : Option String
  mode : String
  actor : Option String
  test : Option (List String)
  json : Bool
  lenient : Bool
  no_commit : Bool
  allow_fail : Bool
deriving DecidableEq, Repr

/-- Modelled from the spec: `choose_mode` (missing `acceptance_support`)
resolves the requested mode, replacing `auto` by a concrete commit/PR-style
mode. -/
def choose_mode (mode : String) : String :=
  if mode = "auto" then "local" else mode

/-- Modelled from the spec: `perform_acceptance` (missing
`acceptance_support`) "executes a commit/PR-style finalization"; when
auto-commit is enabled it records the completion commit, and the source
documents `--no-commit` as "Skip auto-commit (report only)". -/
def perform_acceptance (summary : AcceptanceSummary) (mode : String)
    (actor : Option String) (tests : List String) (auto_commit : Bool) :
    AcceptanceResult :=
  { accepted_at := "now",
    accepted_by := pyOr actor "system",
    accept_commit := if auto_commit then some ("accept: " ++ summary.feature) else none,
    parent_commit := none,
    notes := tests.map (fun t => "validated by " ++ t),
    instructions := ["merge or open the PR for " ++ mode],
    cleanup_instructions := [] }

/-- Modelled from the spec: JSON report formatting is glue; only its
occurrence as output matters here. -/
def summaryJson (s : AcceptanceSummary) : String :=
  "json summary for " ++ s.feature

/-- Modelled from the spec: JSON result formatting is glue. -/
def resultJson (r : AcceptanceResult) : String :=
  "json result for " ++ r.accepted_by

/-- The report `accept_command` prints after a successful finalization. -/
def acceptReport (summary : AcceptanceSummary) (result : AcceptanceResult)
    (json : Bool) : List Effect :=
  if json then [Effect.printLine (resultJson result)]
  else
    [Effect.printLine ("✅ Feature '" ++ summary.feature ++ "' accepted at "
        ++ result.accepted_at ++ " by " ++ result.accepted_by)]
    ++ (match result.accept_commit with
        | some c => [Effect.printLine ("   Acceptance commit: " ++ c)]
        | none => [])
    ++ (match result.parent_commit with
        | some c => [Effect.printLine ("   Parent commit: " ++ c)]
        | none => [])
    ++ (if result.notes.isEmpty then []
        else Effect.printLine "\nNotes:"
          :: result.notes.map (fun n => Effect.printLine ("  " ++ n)))
    ++ (Effect.printLine "\nNext steps:"
        :: result.instructions.map (fun i => Effect.printLine ("  - " ++ i)))
    ++ (if result.cleanup_instructions.isEmpty then []
        else Effect.printLine "\nCleanup:"
          :: result.cleanup_instructions.map (fun i => Effect.printLine ("  - " ++ i)))

/-- `accept_command` from the source: in checklist mode print the summary
and exit by its ok flag; otherwise, when the summary is not ok and
`--allow-fail` is absent, print the outstanding items and exit 1 without
finalizing; else run `perform_acceptance` (auto-commit unless
`--no-commit`) and print the result. -/
def accept_command (summary : AcceptanceSummary) (args : AcceptArgs) : List Effect :=
  if args.mode = "checklist" then
    (if args.json then [Effect.printLine (summaryJson summary)]
     else (summaryToText summary).map Effect.printLine)
    ++ [Effect.exitCode (if summary.ok then 0 else 1)]
  else
    let mode := choose_mode args.mode
    let tests := args.test.getD []
    if !summary.ok && !args.allow_fail then
      (summaryToText summary).map Effect.printLine
        ++ [Effect.printLine "\n❌ Outstanding items detected. Fix them or re-run with --allow-fail for checklist mode.",
            Effect.exitCode 1]
    else
      let result := perform_acceptance summary mode args.actor tests (!args.no_commit)
      Effect.performAccept mode (pyOr args.actor "system") tests (!args.no_commit)
        :: acceptReport summary result args.json

/-- Does a trace run the acceptance finalization? -/
def hasPerformAccept (es : List Effect) : Bool :=
  es.any (fun e => match e with
    | .performAccept _ _ _ _ => true
    | _ => false)

theorem hasPerformAccept_append (a b : List Effect) :
    hasPerformAccept (a ++ b) = (hasPerformAccept a || hasPerformAccept b) := by
  simp [hasPerformAccept]

theorem hasPerformAccept_map_printLine (lines : List String) :
    hasPerformAccept (lines.map Effect.printLine) = false := by
  induction lines with
  | nil => rfl
  | cons l t ih => simpa [hasPerformAccept] using ih

theorem hasPerformAccept_acceptReport (summary : AcceptanceSummary)
    (result : AcceptanceResult) (json : Bool) :
    hasPerformAccept (acceptReport summary result json) = false := by
  unfold acceptReport
  by_cases hj : json = true
  · rw [if_pos hj]; rfl
  · rw [if_neg hj]
    rw [hasPerformAccept_append, hasPerformAccept_append, hasPerformAccept_append,
      hasPerformAccept_append, hasPerformAccept_append]
    have h₁ : hasPerformAccept [Effect.printLine ("✅ Feature '" ++ summary.feature
        ++ "' accepted at " ++ result.accepted_at ++ " by " ++ result.accepted_by)]
        = false := rfl
    have h₂ : hasPerformAccept (match result.accept_commit with
        | some c => [Effect.printLine ("   Acceptance commit: " ++ c)]
        | none => []) = false := by
      cases result.accept_commit <;> rfl
    have h₃ : hasPerformAccept (match result.parent_commit with
        | some c => [Effect.printLine ("   Parent commit: " ++ c)]
        | none => []) = false := by
      cases result.parent_commit <;> rfl
    have h₄ : hasPerformAccept (if result.notes.isEmpty then []
        else Effect.printLine "\nNotes:"
          :: result.notes.map (fun n => Effect.printLine ("  " ++ n))) = false := by
      by_cases hn : result.notes.isEmpty = true
      · rw [if_pos hn]; rfl
      · rw [if_neg hn]
        simpa [hasPerformAccept] using hasPerformAccept_map_printLine
          (result.notes.map (fun n => "  " ++ n))
    have h₅ : hasPerformAccept (Effect.printLine "\nNext steps:"
        :: result.instructions.map (fun i => Effect.printLine ("  - " ++ i))) = false := by
      simpa [hasPerformAccept] using hasPerformAccept_map_printLine
        (result.instructions.map (fun i => "  - " ++ i))
    have h₆ : hasPerformAccept (if result.cleanup_instructions.isEmpty then []
        else Effect.printLine "\nCleanup:"
          :: result.cleanup_instructions.map (fun i => Effect.printLine ("  - " ++ i)))
        = false := by
      by_cases hc : result.cleanup_instructions.isEmpty = true
      · rw [if_pos hc]; rfl
      · rw [if_neg hc]
        simpa [hasPerformAccept] using hasPerformAccept_map_printLine
          (result.cleanup_instructions.map (fun i => "  - " ++ i))
    rw [h₁, h₂, h₃, h₄, h₅, h₆]
    rfl

/-- C4: a non-checklist `accept` with a not-ok summary and without
`--allow-fail` prints the outstanding items and exits with status 1 without
running `perform_acceptance`; conversely the finalization is only reached
when the summary is ok or `--allow-fail` is set. -/
theorem accept_command_guard (summary : AcceptanceSummary) (args : AcceptArgs) :
    (args.mode ≠ "checklist" → summary.ok = false → args.allow_fail = false →
      accept_command summary args
        = (summaryToText summary).map Effect.printLine
          ++ [Effect.printLine "\n❌ Outstanding items detected. Fix them or re-run with --allow-fail for checklist mode.",
              Effect.exitCode 1]) ∧
    (hasPerformAccept (accept_command summary args) = true →
      summary.ok = true ∨ args.allow_fail = true) := by
  constructor
  · intro hm hok hf
    unfold accept_command
    rw [if_neg hm]
    rw [if_pos (by rw [hok, hf]; rfl)]
  · intro h
    by_cases hm : args.mode = "checklist"
    · exfalso
      unfold accept_command at h
      rw [if_pos hm, hasPerformAccept_append] at h
      have h₁ : hasPerformAccept (if args.json then [Effect.printLine (summaryJson summary)]
          else (summaryToText summary).map Effect.printLine) = false := by
        by_cases hj : args.json = true
        · rw [if_pos hj]; rfl
        · rw [if_neg hj]; exact hasPerformAccept_map_printLine _
      rw [h₁] at h
      have h₂ : hasPerformAccept [Effect.exitCode (if summary.ok then 0 else 1)] = false := by
        cases hok : summary.ok <;> rfl
      rw [h₂] at h
      exact absurd h (by simp)
    · by_cases hg : (!summary.ok && !args.allow_fail) = true
      · exfalso
        unfold accept_command at h
        rw [if_neg hm, if_pos hg, hasPerformAccept_append,
          hasPerformAccept_map_printLine] at h
        exact absurd h (by simp [hasPerformAccept])
      · have hg₂ : (!summary.ok && !args.allow_fail) = false := by simpa using hg
        rcases Bool.and_eq_false_iff.1 hg₂ with h₁ | h₂
        · left; simpa using h₁
        · right; simpa using h₂

/-- Witness for C4 at a concrete not-ok summary without `--allow-fail`. -/
theorem accept_command_guard_witness :
    accept_command
        { feature := "f1", branch := none, worktree_root := "/r",
          lanes := [("backlog", ["WP01"])], outstanding := [("lanes", ["WP01"])],
          optional_missing := [], ok := false }
        { feature := some "f1", mode := "local", actor := none, test := none,
          json := false, lenient := false, no_commit := false, allow_fail := false }
      = (summaryToText
          { feature := "f1", branch := none, worktree_root := "/r",
            lanes := [("backlog", ["WP01"])], outstanding := [("lanes", ["WP01"])],
            optional_missing := [], ok := false }).map Effect.printLine
        ++ [Effect.printLine "\n❌ Outstanding items detected. Fix them or re-run with --allow-fail for checklist mode.",
            Effect.exitCode 1] :=
  (accept_command_guard
    { feature := "f1", branch := none, worktree_root := "/r",
      lanes := [("backlog", ["WP01"])], outstanding := [("lanes", ["WP01"])],
      optional_missing := [], ok := false }
    { feature := some "f1", mode := "local", actor := none, test := none,
      json := false, lenient := false, no_commit := false, allow_fail := false }).1
    (by decide) rfl rfl

/-- C5 as stated fails on the code: with `--no-commit` the acceptance
completes — the finalization runs and the success report is printed — yet
no completion commit is recorded (the source documents `--no-commit` as
"Skip auto-commit (report only)"). -/
theorem accept_no_commit_counterexample :
    hasPerformAccept (accept_command
        { feature := "f1", branch := none, worktree_root := "/r", lanes := [],
          outstanding := [], optional_missing := [], ok := true }
        { feature := some "f1", mode := "local", actor := none, test := none,
          json := false, lenient := false, no_commit := true, allow_fail := false })
      = true ∧
    (perform_acceptance
        { feature := "f1", branch := none, worktree_root := "/r", lanes := [],
          outstanding := [], optional_missing := [], ok := true }
        "local" none [] false).accept_commit = none := by
  constructor
  · rfl
  · rfl

/-- C5 (amended): every completed acceptance run without `--no-commit`
records a finalizing commit: any finalization effect the command emits has
auto-commit enabled, and `perform_acceptance` then records the completion
commit. -/
theorem accept_command_commits (summary : AcceptanceSummary) (args : AcceptArgs)
    (hnc : args.no_commit = false) :
    ∀ m a t c, Effect.performAccept m a t c ∈ accept_command summary args →
      c = true ∧
      (perform_acceptance summary m args.actor t c).accept_commit
        = some ("accept: " ++ summary.feature) := by
  intro m a t c hmem
  have hc : c = true := by
    by_cases hm : args.mode = "checklist"
    · exfalso
      unfold accept_command at hmem
      rw [if_pos hm] at hmem
      rcases List.mem_append.1 hmem with h | h
      · by_cases hj : args.json = true
        · rw [if_pos hj] at h; simp at h
        · rw [if_neg hj] at h
          obtain ⟨x, _, hx⟩ := List.mem_map.1 h
          exact Effect.noConfusion hx
      · simp at h
    · unfold accept_command at hmem
      rw [if_neg hm] at hmem
      by_cases hg : (!summary.ok && !args.allow_fail) = true
      · exfalso
        rw [if_pos hg] at hmem
        rcases List.mem_append.1 hmem with h | h
        · obtain ⟨x, _, hx⟩ := List.mem_map.1 h
          exact Effect.noConfusion hx
        · simp at h
      · rw [if_neg hg] at hmem
        rcases List.mem_cons.1 hmem with h | h
        · injection h with h₁ h₂ h₃ h₄
          rw [h₄, hnc]
          rfl
        · exfalso
          have := hasPerformAccept_acceptReport summary
            (perform_acceptance summary (choose_mode args.mode) args.actor
              (args.test.getD []) (!args.no_commit)) args.json
          unfold hasPerformAccept at this
          rw [List.any_eq_false] at this
          exact absurd (this _ h) (by simp)
  subst hc
  exact ⟨rfl, rfl⟩

/-- Witness for C5 (amended) at a concrete ok summary without
`--no-commit`. -/
theorem accept_command_commits_witness :
    (true : Bool) = true ∧
    (perform_acceptance
        { feature := "f1", branch := none, worktree_root := "/r", lanes := [],
          outstanding := [], optional_missing := [], ok := true }
        (choose_mode "local") none [] true).accept_commit
      = some ("accept: " ++ "f1") :=
  accept_command_commits
    { feature := "f1", branch := none, worktree_root := "/r", lanes := [],
      outstanding := [], optional_missing := [], ok := true }
    { feature := some "f1", mode := "local", actor := none, test := none,
      json := false, lenient := false, no_commit := false, allow_fail := false }
    rfl (choose_mode "local") (pyOr none "system") [] true (by decide)

end TasksCli
